import Mathlib

/-!
Verification of the EMR system's persistence layer (`emr_system.py`).

The SQLite store is modelled as explicit state: each table is a list of rows
together with the AUTOINCREMENT counter (`next_id`, starting at 1; SQLite
assigns `lastrowid = next_id` on a successful insert and only then bumps the
counter — a failed insert leaves it unchanged).

External collaborators are parameters of the model:
* `hashlib.pbkdf2_hmac('sha256', password, salt, 100000)` is an abstract
  function `kdf : String → List Nat → List Nat` (password, salt bytes ↦ hash
  bytes); the model keeps the source's handling of it (hex encoding of hash
  and salt, decoding the stored salt on verification) concrete.
* `os.urandom(32)` is a `salt : List Nat` argument to `add_user`.
* `datetime.now().strftime('%Y-%m-%d %H:%M:%S')` is a `now : String` argument
  to `get_upcoming_appointments`.

SQLite TEXT comparison (`>=`, `ORDER BY`) is byte-wise lexicographic, modelled
by `String`'s lexicographic order; `LIKE` is modelled by `likeMatch`, including
its `%`/`_` wildcards and ASCII-only case folding.
-/

/-- Lowercase an ASCII letter, as SQLite's `LIKE` case folding does
(ASCII `A`-`Z` only). -/
def lowerChar (c : Char) : Char :=
  if 'A' ≤ c ∧ c ≤ 'Z' then Char.ofNat (c.toNat + 32) else c

/-- Lowercase a character list (ASCII only). -/
def lowerL (s : List Char) : List Char := s.map lowerChar

/-- One hex digit, lowercase, as Python's `bytes.hex()` produces. -/
def hexDigit (n : Nat) : Char :=
  if n < 10 then Char.ofNat (48 + n) else Char.ofNat (87 + n)

/-- Value of a hex digit character, as Python's `bytes.fromhex` reads it. -/
def hexDigitVal (c : Char) : Nat :=
  if 97 ≤ c.toNat then c.toNat - 87
  else if 65 ≤ c.toNat then c.toNat - 55
  else c.toNat - 48

/-- Python's `bytes.hex()`: two lowercase hex characters per byte. -/
def bytesToHex : List Nat → List Char
  | [] => []
  | b :: bs => hexDigit (b / 16) :: hexDigit (b % 16) :: bytesToHex bs

/-- Python's `bytes.fromhex`: read characters two at a time. -/
def hexToBytes : List Char → List Nat
  | c₁ :: c₂ :: cs => (16 * hexDigitVal c₁ + hexDigitVal c₂) :: hexToBytes cs
  | _ => []

/-- SQLite `LIKE` matching: `%` matches any run of characters, `_` any single
character, other characters match case-insensitively (ASCII folding). The
whole string must match the pattern. -/
def likeMatch : List Char → List Char → Bool
  | [], [] => true
  | [], _ :: _ => false
  | '%' :: ps, [] => likeMatch ps []
  | '%' :: ps, c :: s => likeMatch ps (c :: s) || likeMatch ('%' :: ps) s
  | '_' :: _, [] => false
  | '_' :: ps, _ :: s => likeMatch ps s
  | _ :: _, [] => false
  | p :: ps, c :: s => (lowerChar p == lowerChar c) && likeMatch ps s
termination_by p s => p.length + s.length
decreasing_by all_goals simp <;> omega

/-- Whether `pat` is literally a prefix of `s`. -/
def startsWithL : List Char → List Char → Bool
  | [], _ => true
  | _ :: _, [] => false
  | p :: ps, c :: cs => (p == c) && startsWithL ps cs

/-- Whether `pat` occurs contiguously somewhere inside `s`. -/
def occursIn (pat : List Char) : List Char → Bool
  | [] => pat.isEmpty
  | s@(_ :: cs) => startsWithL pat s || occursIn pat cs

/-- A search term free of the `LIKE` wildcards `%` and `_` — for such terms
`LIKE '%term%'` is exactly case-insensitive substring containment. -/
def noWild (t : List Char) : Bool := t.all (fun c => !(c == '%' || c == '_'))

/-- Byte-wise lexicographic `≤` on character lists: SQLite compares TEXT
values with `memcmp` (BINARY collation), which on the ASCII datetime strings
of this schema is exactly this order. -/
def strLeb : List Char → List Char → Bool
  | [], _ => true
  | _ :: _, [] => false
  | c :: cs, d :: ds =>
    if c.toNat < d.toNat then true
    else if d.toNat < c.toNat then false
    else strLeb cs ds

/-- SQLite's `<=` on TEXT values. -/
def sqliteLe (a b : String) : Bool := strLeb a.data b.data

/-- Python truthiness of the `Optional[int]` argument `doctor_id`:
`None` and `0` are falsy, every other int is truthy. -/
def pyTruthy : Option Int → Bool
  | none => false
  | some d => d != 0

/-! ## Data model (the dataclasses of `emr_system.py`) -/

/-- The `Patient` dataclass: `id` is `None` until assigned by the store. -/
structure Patient where
  id : Option Nat
  first_name : String
  last_name : String
  dob : String
  gender : String
  contact_number : String
  email : String
  address : String
  insurance_info : String
deriving DecidableEq, Repr

/-- The `Appointment` dataclass. -/
structure Appointment where
  id : Option Nat
  patient_id : Int
  doctor_id : Int
  appointment_date : String
  reason : String
  status : String
deriving DecidableEq, Repr

/-- The `MedicalRecord` dataclass. -/
structure MedicalRecord where
  id : Option Nat
  patient_id : Int
  visit_date : String
  diagnosis : String
  prescription : String
  notes : String
  doctor_id : Int
deriving DecidableEq, Repr

/-! ## Stored rows (the four tables of `setup_database`) -/

/-- A row of the `users` table. -/
structure UserRow where
  id : Nat
  username : String
  password_hash : String
  salt : String
  role : String
  name : String
deriving DecidableEq, Repr

/-- A row of the `patients` table. -/
structure PatientRow where
  id : Nat
  first_name : String
  last_name : String
  dob : String
  gender : String
  contact_number : String
  email : String
  address : String
  insurance_info : String
deriving DecidableEq, Repr

/-- A row of the `appointments` table. -/
structure ApptRow where
  id : Nat
  patient_id : Int
  doctor_id : Int
  appointment_date : String
  reason : String
  status : String
deriving DecidableEq, Repr

/-- A row of the `medical_records` table. -/
structure MedRecRow where
  id : Nat
  patient_id : Int
  visit_date : String
  diagnosis : String
  prescription : String
  notes : String
  doctor_id : Int
deriving DecidableEq, Repr

/-- A table: its rows (in insertion order) plus the AUTOINCREMENT counter. -/
structure Table (α : Type) where
  rows : List α
  next_id : Nat
deriving DecidableEq, Repr

/-- A freshly created table: no rows, ids start at 1. -/
def freshTable {α : Type} : Table α := ⟨[], 1⟩

/-- The database after `setup_database`: all four tables exist. -/
structure DB where
  users : Table UserRow
  patients : Table PatientRow
  appointments : Table ApptRow
  medical_records : Table MedRecRow
deriving DecidableEq, Repr

/-- A raw database file: each of the four tables may or may not exist yet
(`CREATE TABLE IF NOT EXISTS` acts on each independently). -/
structure RawDB where
  users : Option (Table UserRow)
  patients : Option (Table PatientRow)
  appointments : Option (Table ApptRow)
  medical_records : Option (Table MedRecRow)
deriving DecidableEq, Repr

/-- Embedding of `EMRSystem.setup_database`: four `CREATE TABLE IF NOT EXISTS` statements —
each table is created empty when absent and left untouched when present. -/
def setup_database (d : RawDB) : RawDB :=
  { users := some (d.users.getD freshTable)
    patients := some (d.patients.getD freshTable)
    appointments := some (d.appointments.getD freshTable)
    medical_records := some (d.medical_records.getD freshTable) }

/-- An empty database file: none of the tables exist. -/
def emptyRawDB : RawDB := ⟨none, none, none, none⟩

/-- The store right after construction on a fresh file. -/
def emptyDB : DB := ⟨freshTable, freshTable, freshTable, freshTable⟩

/-! ## Credential manager -/

/-- Embedding of `EMRSystem._hash_password` with the salt already drawn (the source draws
`os.urandom(32)` when no salt is passed; callers of the model pass the drawn
salt explicitly). `kdf` stands for the external
`hashlib.pbkdf2_hmac('sha256', password.encode('utf-8'), salt, 100000)` call;
the function returns the derived hash and the salt as lowercase hex strings. -/
def hash_password (kdf : String → List Nat → List Nat)
    (password : String) (salt : List Nat) : String × String :=
  (⟨bytesToHex (kdf password salt)⟩, ⟨bytesToHex salt⟩)

/-! ## Record store operations -/

/-- Embedding of `EMRSystem.add_user`: hash the password with a fresh salt, insert the row;
the UNIQUE constraint on `username` makes the insert raise `IntegrityError`
when the username is already stored, which is swallowed into `false` and
leaves the table (and its AUTOINCREMENT counter) unchanged. -/
def add_user (kdf : String → List Nat → List Nat) (salt : List Nat)
    (username password role name : String) (db : DB) : Bool × DB :=
  if db.users.rows.any (fun u => u.username == username) then
    (false, db)
  else
    let (password_hash, salt_hex) := hash_password kdf password salt
    (true,
      { db with users :=
          { rows := db.users.rows ++
              [{ id := db.users.next_id, username := username,
                 password_hash := password_hash, salt := salt_hex,
                 role := role, name := name }]
            next_id := db.users.next_id + 1 } })

/-- Embedding of `EMRSystem.authenticate_user`: look up the row by username (`fetchone` on
the UNIQUE column returns the first and only match), recompute the hash with
the stored salt, and return `(id, role)` only on exact hash match; unknown
username and wrong password both return `none`. -/
def authenticate_user (kdf : String → List Nat → List Nat)
    (username password : String) (db : DB) : Option (Nat × String) :=
  match db.users.rows.find? (fun u => u.username == username) with
  | none => none
  | some u =>
    let (password_hash, _) := hash_password kdf password (hexToBytes u.salt.data)
    if password_hash == u.password_hash then some (u.id, u.role) else none

/-- Embedding of `EMRSystem.add_patient`: insert the fields (the dataclass `id` is not part
of the INSERT), return `lastrowid`. -/
def add_patient (p : Patient) (db : DB) : Nat × DB :=
  (db.patients.next_id,
    { db with patients :=
        { rows := db.patients.rows ++
            [{ id := db.patients.next_id, first_name := p.first_name,
               last_name := p.last_name, dob := p.dob, gender := p.gender,
               contact_number := p.contact_number, email := p.email,
               address := p.address, insurance_info := p.insurance_info }]
          next_id := db.patients.next_id + 1 } })

/-- Rebuild a `Patient` dataclass from a stored row, as the SELECTs do. -/
def PatientRow.toPatient (r : PatientRow) : Patient :=
  { id := some r.id, first_name := r.first_name, last_name := r.last_name,
    dob := r.dob, gender := r.gender, contact_number := r.contact_number,
    email := r.email, address := r.address, insurance_info := r.insurance_info }

/-- Embedding of `EMRSystem.get_patient`: primary-key lookup. -/
def get_patient (patient_id : Nat) (db : DB) : Option Patient :=
  (db.patients.rows.find? (fun r => r.id == patient_id)).map PatientRow.toPatient

/-- Embedding of `EMRSystem.schedule_appointment`: insert, return `lastrowid`. -/
def schedule_appointment (a : Appointment) (db : DB) : Nat × DB :=
  (db.appointments.next_id,
    { db with appointments :=
        { rows := db.appointments.rows ++
            [{ id := db.appointments.next_id, patient_id := a.patient_id,
               doctor_id := a.doctor_id, appointment_date := a.appointment_date,
               reason := a.reason, status := a.status }]
          next_id := db.appointments.next_id + 1 } })

/-- Rebuild an `Appointment` dataclass from a stored row. -/
def ApptRow.toAppointment (r : ApptRow) : Appointment :=
  { id := some r.id, patient_id := r.patient_id, doctor_id := r.doctor_id,
    appointment_date := r.appointment_date, reason := r.reason,
    status := r.status }

/-- Embedding of `EMRSystem.add_medical_record`: insert, return `lastrowid`. -/
def add_medical_record (m : MedicalRecord) (db : DB) : Nat × DB :=
  (db.medical_records.next_id,
    { db with medical_records :=
        { rows := db.medical_records.rows ++
            [{ id := db.medical_records.next_id, patient_id := m.patient_id,
               visit_date := m.visit_date, diagnosis := m.diagnosis,
               prescription := m.prescription, notes := m.notes,
               doctor_id := m.doctor_id }]
          next_id := db.medical_records.next_id + 1 } })

/-- Rebuild a `MedicalRecord` dataclass from a stored row. -/
def MedRecRow.toMedicalRecord (r : MedRecRow) : MedicalRecord :=
  { id := some r.id, patient_id := r.patient_id, visit_date := r.visit_date,
    diagnosis := r.diagnosis, prescription := r.prescription, notes := r.notes,
    doctor_id := r.doctor_id }

/-- Embedding of `EMRSystem.get_patient_medical_history`:
`SELECT * FROM medical_records WHERE patient_id = ? ORDER BY visit_date DESC`. -/
def get_patient_medical_history (patient_id : Int) (db : DB) :
    List MedicalRecord :=
  (((db.medical_records.rows.filter (fun r => r.patient_id == patient_id)).mergeSort
      (fun a b => sqliteLe b.visit_date a.visit_date)).map
    MedRecRow.toMedicalRecord)

/-- Embedding of `EMRSystem.get_upcoming_appointments`: filter `appointment_date >= now`,
and — only when the optional `doctor_id` is truthy (Python `if doctor_id:`,
so `None` and `0` both skip it) — also `doctor_id = ?`; order ascending by
`appointment_date`. -/
def get_upcoming_appointments (now : String) (doctor_id : Option Int)
    (db : DB) : List Appointment :=
  (((db.appointments.rows.filter (fun a =>
        sqliteLe now a.appointment_date &&
          (if pyTruthy doctor_id then a.doctor_id == doctor_id.getD 0
           else true))).mergeSort
      (fun a b => sqliteLe a.appointment_date b.appointment_date)).map
    ApptRow.toAppointment)

/-- Embedding of `EMRSystem.search_patients`:
`WHERE first_name LIKE ? OR last_name LIKE ?` with pattern `%term%`;
no ORDER BY, so rows come back in store-native order. -/
def search_patients (term : String) (db : DB) : List Patient :=
  let pat := '%' :: term.data ++ ['%']
  ((db.patients.rows.filter (fun r =>
      likeMatch pat r.first_name.data || likeMatch pat r.last_name.data)).map
    PatientRow.toPatient)

/-- Well-formedness of a table: the AUTOINCREMENT counter is at least 1,
every stored id is positive and below the counter, and stored ids are
pairwise distinct. -/
def TableWf {α : Type} (t : Table α) (gid : α → Nat) : Prop :=
  1 ≤ t.next_id ∧ (∀ r ∈ t.rows, 0 < gid r ∧ gid r < t.next_id) ∧
    t.rows.Pairwise (fun a b => gid a ≠ gid b)

/-- The store invariant of C8: ids positive and unique within each table,
usernames unique across the users table. -/
def DBWf (db : DB) : Prop :=
  TableWf db.users (fun r => r.id) ∧
  TableWf db.patients (fun r => r.id) ∧
  TableWf db.appointments (fun r => r.id) ∧
  TableWf db.medical_records (fun r => r.id) ∧
  db.users.rows.Pairwise (fun a b => a.username ≠ b.username)

/-! ## Hex encoding lemmas -/

theorem hexDigitVal_hexDigit {n : Nat} (h : n < 16) :
    hexDigitVal (hexDigit n) = n := by
  revert h
  revert n
  decide

theorem bytesToHex_length (bs : List Nat) :
    (bytesToHex bs).length = 2 * bs.length := by
  induction bs with
  | nil => rfl
  | cons b bs ih => simp [bytesToHex, ih]; omega

theorem hexToBytes_bytesToHex (bs : List Nat) (h : ∀ b ∈ bs, b < 256) :
    hexToBytes (bytesToHex bs) = bs := by
  induction bs with
  | nil => rfl
  | cons b bs ih =>
    have hb : b < 256 := h b (List.mem_cons_self b bs)
    have h1 : b / 16 < 16 := by omega
    have h2 : b % 16 < 16 := by omega
    simp only [bytesToHex, hexToBytes, hexDigitVal_hexDigit h1,
      hexDigitVal_hexDigit h2]
    rw [ih (fun x hx => h x (List.mem_cons_of_mem b hx))]
    congr 1
    omega

theorem bytesToHex_injOn {bs₁ bs₂ : List Nat} (h₁ : ∀ b ∈ bs₁, b < 256)
    (h₂ : ∀ b ∈ bs₂, b < 256) (h : bytesToHex bs₁ = bytesToHex bs₂) :
    bs₁ = bs₂ := by
  rw [← hexToBytes_bytesToHex bs₁ h₁, ← hexToBytes_bytesToHex bs₂ h₂, h]

/-! ## Claim C9: initialize is idempotent -/

/-- C9: `setup_database` is idempotent — on a store where the four tables
already exist it is a no-op (data and schema unchanged), on a fresh store it
creates all four tables, and running it twice yields the same state as
running it once. -/
theorem setup_database_idempotent (d : RawDB) :
    setup_database (setup_database d) = setup_database d ∧
    (d.users.isSome → d.patients.isSome → d.appointments.isSome →
      d.medical_records.isSome → setup_database d = d) ∧
    setup_database emptyRawDB =
      { users := some freshTable, patients := some freshTable,
        appointments := some freshTable, medical_records := some freshTable } := by
  refine ⟨by simp [setup_database], ?_, rfl⟩
  obtain ⟨u, p, a, m⟩ := d
  intro h1 h2 h3 h4
  cases u <;> cases p <;> cases a <;> cases m <;> simp_all [setup_database]

/-- Witness for C9 at a store where all four tables exist. -/
theorem setup_database_idempotent_witness :
    setup_database
        { users := some freshTable, patients := some freshTable,
          appointments := some freshTable, medical_records := some freshTable } =
      { users := some freshTable, patients := some freshTable,
        appointments := some freshTable, medical_records := some freshTable } :=
  (setup_database_idempotent _).2.1 rfl rfl rfl rfl

/-! ## Claim C10: doctor_id = 0 applies no doctor filter -/

/-- C10: calling `get_upcoming_appointments` with `doctor_id = 0` applies no
doctor filter at all — it returns exactly the result of calling it with no
`doctor_id`, because the Python guard `if doctor_id:` treats `0` as falsy. -/
theorem get_upcoming_appointments_zero_doctor (now : String) (db : DB) :
    get_upcoming_appointments now (some 0) db =
      get_upcoming_appointments now none db := rfl

/-! ## Claim C3: username uniqueness on account creation -/

/-- C3: `add_user` with an already-stored username returns `false` and leaves
the store unchanged (no duplicate row); with a fresh username it returns
`true` and appends exactly one row (carrying that username) to the users
table. -/
theorem add_user_unique (kdf : String → List Nat → List Nat) (salt : List Nat)
    (u p r n : String) (db : DB) :
    ((∃ row ∈ db.users.rows, row.username = u) →
      add_user kdf salt u p r n db = (false, db)) ∧
    ((∀ row ∈ db.users.rows, row.username ≠ u) →
      (add_user kdf salt u p r n db).1 = true ∧
      ∃ newRow : UserRow, newRow.username = u ∧
        (add_user kdf salt u p r n db).2.users.rows =
          db.users.rows ++ [newRow]) := by
  constructor
  · rintro ⟨row, hmem, hname⟩
    have hany : db.users.rows.any (fun x => x.username == u) = true := by
      simp only [List.any_eq_true]
      exact ⟨row, hmem, by simp [hname]⟩
    simp [add_user, hany]
  · intro hfresh
    have hany : db.users.rows.any (fun x => x.username == u) = false := by
      simp only [List.any_eq_false]
      intro x hx
      simp [hfresh x hx]
    refine ⟨by simp [add_user, hany], ?_⟩
    refine ⟨{ id := db.users.next_id, username := u,
              password_hash := (hash_password kdf p salt).1,
              salt := (hash_password kdf p salt).2, role := r, name := n },
           rfl, ?_⟩
    simp [add_user, hany, hash_password]

/-- Witness for C3: on a store holding the username the call fails and
changes nothing; on the empty store it succeeds. -/
theorem add_user_unique_witness :
    (add_user (fun _ s => s) [] "dr_smith" "pw" "doctor" "Dr"
        { emptyDB with users :=
            { rows := [{ id := 1, username := "dr_smith", password_hash := "",
                         salt := "", role := "doctor", name := "Dr" }],
              next_id := 2 } } =
      (false,
        { emptyDB with users :=
            { rows := [{ id := 1, username := "dr_smith", password_hash := "",
                         salt := "", role := "doctor", name := "Dr" }],
              next_id := 2 } })) ∧
    (add_user (fun _ s => s) [] "dr_smith" "pw" "doctor" "Dr" emptyDB).1 = true :=
  ⟨(add_user_unique _ _ _ _ _ _ _).1
     ⟨{ id := 1, username := "dr_smith", password_hash := "",
        salt := "", role := "doctor", name := "Dr" }, by simp, rfl⟩,
   ((add_user_unique (fun _ s => s) [] "dr_smith" "pw" "doctor" "Dr" emptyDB).2
      (by simp [emptyDB, freshTable])).1⟩

/-! ## Claim C1: authentication -/

/-- C1: a freshly created account (`add_user` with the drawn random salt)
authenticates under its password to its assigned `(id, role)`; an unknown
username returns `none`, and a stored username whose stored hash is not
reproduced by the supplied password under the stored salt also returns
`none` — the same value in both failure cases, exposing no distinction. -/
theorem authenticate_user_spec (kdf : String → List Nat → List Nat)
    (salt : List Nat) (u p pw r n : String) (db : DB)
    (hsalt : ∀ b ∈ salt, b < 256) :
    ((∀ row ∈ db.users.rows, row.username ≠ u) →
      authenticate_user kdf u p (add_user kdf salt u p r n db).2 =
        some (db.users.next_id, r)) ∧
    ((∀ row ∈ db.users.rows, row.username ≠ u) →
      authenticate_user kdf u pw db = none) ∧
    ((∀ row ∈ db.users.rows, row.username = u →
        (hash_password kdf pw (hexToBytes row.salt.data)).1 ≠
          row.password_hash) →
      authenticate_user kdf u pw db = none) := by
  refine ⟨?_, ?_, ?_⟩
  · intro hfresh
    have hany : db.users.rows.any (fun x => x.username == u) = false := by
      simp only [List.any_eq_false]
      intro x hx
      simp [hfresh x hx]
    have hfind : db.users.rows.find? (fun x => x.username == u) = none :=
      List.find?_eq_none.mpr (fun x hx => by simp [hfresh x hx])
    have hdb2 : (add_user kdf salt u p r n db).2.users.rows =
        db.users.rows ++
          [{ id := db.users.next_id, username := u,
             password_hash := ⟨bytesToHex (kdf p salt)⟩,
             salt := ⟨bytesToHex salt⟩, role := r, name := n }] := by
      simp [add_user, hany, hash_password]
    have hfind2 : ((add_user kdf salt u p r n db).2.users.rows).find?
        (fun x => x.username == u) =
        some { id := db.users.next_id, username := u,
               password_hash := ⟨bytesToHex (kdf p salt)⟩,
               salt := ⟨bytesToHex salt⟩, role := r, name := n } := by
      rw [hdb2, List.find?_append, hfind]
      simp
    simp [authenticate_user, hfind2, hash_password,
      hexToBytes_bytesToHex salt hsalt]
  · intro hfresh
    have hfind : db.users.rows.find? (fun x => x.username == u) = none :=
      List.find?_eq_none.mpr (fun x hx => by simp [hfresh x hx])
    simp [authenticate_user, hfind]
  · intro hwrong
    cases hfind : db.users.rows.find? (fun x => x.username == u) with
    | none => simp [authenticate_user, hfind]
    | some row =>
      have hmem : row ∈ db.users.rows := List.mem_of_find?_eq_some hfind
      have huser : row.username = u := by
        have := List.find?_some hfind
        simpa using this
      have hne := hwrong row hmem huser
      simp [authenticate_user, hfind, hash_password] at hne ⊢
      simpa [hash_password] using hne

/-- Witness for C1: on the empty store, creating `dr_smith` and
authenticating with the right password yields `(1, "doctor")`; an unknown
username yields `none`. -/
theorem authenticate_user_spec_witness :
    authenticate_user (fun _ s => s) "dr_smith" "pw"
        (add_user (fun _ s => s) [] "dr_smith" "pw" "doctor" "Dr" emptyDB).2 =
      some (1, "doctor") ∧
    authenticate_user (fun _ s => s) "nobody" "pw" emptyDB = none :=
  ⟨(authenticate_user_spec (fun _ s => s) [] "dr_smith" "pw" "pw" "doctor"
      "Dr" emptyDB (by simp)).1 (by simp [emptyDB, freshTable]),
   (authenticate_user_spec (fun _ s => s) [] "nobody" "x" "pw" "r" "n"
      emptyDB (by simp)).2.1 (by simp [emptyDB, freshTable])⟩

/-! ## Claim C2: password hashing -/

/-- C2: with the external `pbkdf2_hmac('sha256', …, 100000)` call modelled as
`kdf` (32-byte output, byte-valued, and collision-free on distinct salts —
the properties of PBKDF2-HMAC-SHA256 the spec relies on), `hash_password`
returns hash and salt as fixed-width hexadecimal strings (64 hex characters
for the 32-byte hash and the 32-byte random salt); recomputing with the
decoded stored salt reproduces the stored hash and salt exactly; and two
calls on the same password with distinct fresh salts store different
hashes. -/
theorem hash_password_spec (kdf : String → List Nat → List Nat) (p : String)
    (s s₁ s₂ : List Nat)
    (hs : ∀ b ∈ s, b < 256) (hslen : s.length = 32)
    (hlen : (kdf p s).length = 32)
    (hb₁ : ∀ b ∈ kdf p s₁, b < 256) (hb₂ : ∀ b ∈ kdf p s₂, b < 256)
    (hne : s₁ ≠ s₂)
    (hinj : ∀ t₁ t₂ : List Nat, t₁ ≠ t₂ → kdf p t₁ ≠ kdf p t₂) :
    (hash_password kdf p s).1.length = 64 ∧
    (hash_password kdf p s).2.length = 64 ∧
    hash_password kdf p (hexToBytes (hash_password kdf p s).2.data) =
      hash_password kdf p s ∧
    (hash_password kdf p s₁).1 ≠ (hash_password kdf p s₂).1 := by
  refine ⟨?_, ?_, ?_, ?_⟩
  · simp [hash_password, String.length, bytesToHex_length, hlen]
  · simp [hash_password, String.length, bytesToHex_length, hslen]
  · simp [hash_password, hexToBytes_bytesToHex s hs]
  · intro heq
    have hdata : bytesToHex (kdf p s₁) = bytesToHex (kdf p s₂) := by
      simpa [hash_password, String.ext_iff] using heq
    exact hinj s₁ s₂ hne (bytesToHex_injOn hb₁ hb₂ hdata)

/-- Witness for C2 with the identity taken for the external KDF, a 32-byte
zero salt, and the distinct salts `[0]` and `[1]`. -/
theorem hash_password_spec_witness :
    (hash_password (fun _ s => s) "pw" (List.replicate 32 0)).1.length = 64 ∧
    (hash_password (fun _ s => s) "pw" (List.replicate 32 0)).2.length = 64 ∧
    hash_password (fun _ s => s) "pw"
        (hexToBytes
          (hash_password (fun _ s => s) "pw" (List.replicate 32 0)).2.data) =
      hash_password (fun _ s => s) "pw" (List.replicate 32 0) ∧
    (hash_password (fun _ s => s) "pw" [0]).1 ≠
      (hash_password (fun _ s => s) "pw" [1]).1 :=
  hash_password_spec (fun _ s => s) "pw" (List.replicate 32 0) [0] [1]
    (by decide) (by decide) (by decide) (by decide) (by decide) (by decide)
    (fun _ _ h => h)

/-! ## Lexicographic order lemmas -/

theorem strLeb_trans : ∀ a b c : List Char,
    strLeb a b = true → strLeb b c = true → strLeb a c = true
  | [], _, _, _, _ => rfl
  | _ :: _, [], _, h, _ => by simp [strLeb] at h
  | _ :: _, _ :: _, [], _, h => by simp [strLeb] at h
  | x :: xs, y :: ys, z :: zs, h1, h2 => by
    simp only [strLeb] at h1 h2 ⊢
    split_ifs at h1 h2 ⊢ <;> try omega
    all_goals try rfl
    all_goals try simp_all
    exact strLeb_trans xs ys zs h1 h2

theorem strLeb_total : ∀ a b : List Char, strLeb a b || strLeb b a
  | [], _ => by simp [strLeb]
  | _ :: _, [] => by simp [strLeb]
  | x :: xs, y :: ys => by
    simp only [strLeb]
    split_ifs <;> simp
    have := strLeb_total xs ys
    simpa using this

theorem sqliteLe_trans (a b c : String) (h1 : sqliteLe a b = true)
    (h2 : sqliteLe b c = true) : sqliteLe a c = true :=
  strLeb_trans a.data b.data c.data h1 h2

theorem sqliteLe_total (a b : String) : sqliteLe a b || sqliteLe b a :=
  strLeb_total a.data b.data

/-! ## Claim C6: medical history -/

/-- C6: `get_patient_medical_history` returns exactly the stored medical
records whose `patient_id` equals the given id — all of them — ordered
descending by `visit_date` (most recent first, under SQLite's lexicographic
TEXT comparison). -/
theorem get_patient_medical_history_spec (db : DB) (pid : Int) :
    (get_patient_medical_history pid db).Pairwise
      (fun x y => sqliteLe y.visit_date x.visit_date = true) ∧
    ∀ m, m ∈ get_patient_medical_history pid db ↔
      ∃ r ∈ db.medical_records.rows, r.patient_id = pid ∧
        m = r.toMedicalRecord := by
  constructor
  · unfold get_patient_medical_history
    rw [List.pairwise_map]
    have h := @List.sorted_mergeSort MedRecRow
      (fun a b => sqliteLe b.visit_date a.visit_date)
      (fun a b c hab hbc => sqliteLe_trans _ _ _ hbc hab)
      (fun a b => sqliteLe_total _ _)
      (db.medical_records.rows.filter (fun r => r.patient_id == pid))
    exact h.imp (fun hab => hab)
  · intro m
    simp only [get_patient_medical_history, List.mem_map, List.mem_mergeSort,
      List.mem_filter, beq_iff_eq]
    constructor
    · rintro ⟨r, ⟨hmem, hpid⟩, heq⟩
      exact ⟨r, hmem, hpid, heq.symm⟩
    · rintro ⟨r, hmem, hpid, heq⟩
      exact ⟨r, ⟨hmem, hpid⟩, heq.symm⟩

/-! ## Claim C5: upcoming appointments (corrected at doctor_id = 0) -/

/-- The original C5 fails at the supplied value `doctor_id = 0`: the store
holds a single future appointment for doctor `7`, yet the call with
`doctor_id = 0` returns it — the Python guard `if doctor_id:` treats `0` as
falsy and applies no doctor filter, so the result is not restricted to
appointments whose `doctor_id` equals the supplied value. -/
theorem get_upcoming_appointments_counterexample :
    get_upcoming_appointments "2024-01-01 00:00:00" (some 0)
        { emptyDB with appointments :=
            { rows := [{ id := 1, patient_id := 1, doctor_id := 7,
                         appointment_date := "2025-01-01 09:00:00",
                         reason := "checkup", status := "scheduled" }],
              next_id := 2 } } =
      [{ id := some 1, patient_id := 1, doctor_id := 7,
         appointment_date := "2025-01-01 09:00:00",
         reason := "checkup", status := "scheduled" }] ∧
    (7 : Int) ≠ 0 := by
  constructor
  · simp [get_upcoming_appointments, emptyDB, freshTable, pyTruthy, sqliteLe,
      strLeb, List.mergeSort, ApptRow.toAppointment]
  · decide

/-- C5 (amended: only for a nonzero supplied doctor id — `0` is falsy for
the Python guard `if doctor_id:` and applies no doctor filter, see C10):
with doctor id `d ≠ 0`, `get_upcoming_appointments` returns exactly the
stored appointments with `appointment_date >= now` and `doctor_id = d` —
excluding other doctors' appointments even if chronologically upcoming —
ordered ascending by `appointment_date`; with no doctor id it returns
exactly the stored appointments with `appointment_date >= now`, ordered
ascending. -/
theorem get_upcoming_appointments_spec (now : String) (db : DB) (d : Int)
    (hd : d ≠ 0) :
    ((get_upcoming_appointments now (some d) db).Pairwise
        (fun x y => sqliteLe x.appointment_date y.appointment_date = true) ∧
      (∀ a, a ∈ get_upcoming_appointments now (some d) db ↔
        ∃ r ∈ db.appointments.rows, sqliteLe now r.appointment_date = true ∧
          r.doctor_id = d ∧ a = r.toAppointment)) ∧
    ((get_upcoming_appointments now none db).Pairwise
        (fun x y => sqliteLe x.appointment_date y.appointment_date = true) ∧
      (∀ a, a ∈ get_upcoming_appointments now none db ↔
        ∃ r ∈ db.appointments.rows, sqliteLe now r.appointment_date = true ∧
          a = r.toAppointment)) := by
  have hsort : ∀ dopt, (get_upcoming_appointments now dopt db).Pairwise
      (fun x y => sqliteLe x.appointment_date y.appointment_date = true) := by
    intro dopt
    unfold get_upcoming_appointments
    rw [List.pairwise_map]
    have h := @List.sorted_mergeSort ApptRow
      (fun a b => sqliteLe a.appointment_date b.appointment_date)
      (fun a b c hab hbc => sqliteLe_trans _ _ _ hab hbc)
      (fun a b => sqliteLe_total _ _)
      (db.appointments.rows.filter (fun a =>
        sqliteLe now a.appointment_date &&
          (if pyTruthy dopt then a.doctor_id == dopt.getD 0 else true)))
    exact h.imp (fun hab => hab)
  refine ⟨⟨hsort _, ?_⟩, ⟨hsort _, ?_⟩⟩
  · intro a
    have hdd : pyTruthy (some d) = true := by simp [pyTruthy, hd]
    simp only [get_upcoming_appointments, hdd, if_pos, List.mem_map,
      List.mem_mergeSort, List.mem_filter, Bool.and_eq_true, beq_iff_eq,
      Option.getD_some]
    constructor
    · rintro ⟨r, ⟨hmem, hle, hdoc⟩, heq⟩
      exact ⟨r, hmem, hle, hdoc, heq.symm⟩
    · rintro ⟨r, hmem, hle, hdoc, heq⟩
      exact ⟨r, ⟨hmem, hle, hdoc⟩, heq.symm⟩
  · intro a
    simp only [get_upcoming_appointments, pyTruthy, Bool.false_eq_true,
      if_neg, List.mem_map, List.mem_mergeSort, List.mem_filter,
      Bool.and_eq_true]
    constructor
    · rintro ⟨r, ⟨hmem, hle, _⟩, heq⟩
      exact ⟨r, hmem, hle, heq.symm⟩
    · rintro ⟨r, hmem, hle, heq⟩
      exact ⟨r, ⟨hmem, hle, by simp⟩, heq.symm⟩

/-- Witness for C5 on a store holding an upcoming appointment for doctor 5,
an upcoming appointment for doctor 7 and a past appointment for doctor 5,
with the nonzero filter value 5. -/
theorem get_upcoming_appointments_spec_witness :
    ((get_upcoming_appointments "2024-01-01 00:00:00" (some 5)
          { emptyDB with appointments :=
              { rows := [{ id := 1, patient_id := 1, doctor_id := 5,
                           appointment_date := "2025-01-01 09:00:00",
                           reason := "a", status := "scheduled" },
                         { id := 2, patient_id := 1, doctor_id := 7,
                           appointment_date := "2025-01-02 09:00:00",
                           reason := "b", status := "scheduled" },
                         { id := 3, patient_id := 1, doctor_id := 5,
                           appointment_date := "2020-01-01 09:00:00",
                           reason := "c", status := "scheduled" }],
                next_id := 4 } }).Pairwise
        (fun x y => sqliteLe x.appointment_date y.appointment_date = true) ∧
      (∀ a, a ∈ get_upcoming_appointments "2024-01-01 00:00:00" (some 5)
          { emptyDB with appointments :=
              { rows := [{ id := 1, patient_id := 1, doctor_id := 5,
                           appointment_date := "2025-01-01 09:00:00",
                           reason := "a", status := "scheduled" },
                         { id := 2, patient_id := 1, doctor_id := 7,
                           appointment_date := "2025-01-02 09:00:00",
                           reason := "b", status := "scheduled" },
                         { id := 3, patient_id := 1, doctor_id := 5,
                           appointment_date := "2020-01-01 09:00:00",
                           reason := "c", status := "scheduled" }],
                next_id := 4 } } ↔
        ∃ r ∈ ({ emptyDB with appointments :=
              { rows := [{ id := 1, patient_id := 1, doctor_id := 5,
                           appointment_date := "2025-01-01 09:00:00",
                           reason := "a", status := "scheduled" },
                         { id := 2, patient_id := 1, doctor_id := 7,
                           appointment_date := "2025-01-02 09:00:00",
                           reason := "b", status := "scheduled" },
                         { id := 3, patient_id := 1, doctor_id := 5,
                           appointment_date := "2020-01-01 09:00:00",
                           reason := "c", status := "scheduled" }],
                next_id := 4 } } : DB).appointments.rows,
          sqliteLe "2024-01-01 00:00:00" r.appointment_date = true ∧
          r.doctor_id = 5 ∧ a = r.toAppointment)) ∧
    ((get_upcoming_appointments "2024-01-01 00:00:00" none
          { emptyDB with appointments :=
              { rows := [{ id := 1, patient_id := 1, doctor_id := 5,
                           appointment_date := "2025-01-01 09:00:00",
                           reason := "a", status := "scheduled" },
                         { id := 2, patient_id := 1, doctor_id := 7,
                           appointment_date := "2025-01-02 09:00:00",
                           reason := "b", status := "scheduled" },
                         { id := 3, patient_id := 1, doctor_id := 5,
                           appointment_date := "2020-01-01 09:00:00",
                           reason := "c", status := "scheduled" }],
                next_id := 4 } }).Pairwise
        (fun x y => sqliteLe x.appointment_date y.appointment_date = true) ∧
      (∀ a, a ∈ get_upcoming_appointments "2024-01-01 00:00:00" none
          { emptyDB with appointments :=
              { rows := [{ id := 1, patient_id := 1, doctor_id := 5,
                           appointment_date := "2025-01-01 09:00:00",
                           reason := "a", status := "scheduled" },
                         { id := 2, patient_id := 1, doctor_id := 7,
                           appointment_date := "2025-01-02 09:00:00",
                           reason := "b", status := "scheduled" },
                         { id := 3, patient_id := 1, doctor_id := 5,
                           appointment_date := "2020-01-01 09:00:00",
                           reason := "c", status := "scheduled" }],
                next_id := 4 } } ↔
        ∃ r ∈ ({ emptyDB with appointments :=
              { rows := [{ id := 1, patient_id := 1, doctor_id := 5,
                           appointment_date := "2025-01-01 09:00:00",
                           reason := "a", status := "scheduled" },
                         { id := 2, patient_id := 1, doctor_id := 7,
                           appointment_date := "2025-01-02 09:00:00",
                           reason := "b", status := "scheduled" },
                         { id := 3, patient_id := 1, doctor_id := 5,
                           appointment_date := "2020-01-01 09:00:00",
                           reason := "c", status := "scheduled" }],
                next_id := 4 } } : DB).appointments.rows,
          sqliteLe "2024-01-01 00:00:00" r.appointment_date = true ∧
          a = r.toAppointment)) :=
  get_upcoming_appointments_spec "2024-01-01 00:00:00" _ 5 (by decide)

/-! ## Claim C4: insert/retrieve round-trip (corrected for appointments) -/

/-- The original C4 fails for appointments: the store exposes no appointment
query other than `get_upcoming_appointments`, and an appointment inserted
with a past `appointment_date` is absent from that query's result — with no
doctor filter, with the falsy filter `0`, and with the appointment's own
doctor id `7` (a filter on any other doctor id excludes it already by the
doctor condition). The inserted appointment (returned id 1) is therefore not
retrievable through the exposed query operations. -/
theorem roundtrip_counterexample :
    (schedule_appointment { id := none, patient_id := 1, doctor_id := 7,
                                            appointment_date := "2020-01-01 09:00:00",
                                            reason := "checkup", status := "scheduled" } emptyDB).1 = 1 ∧
    get_upcoming_appointments "2024-01-01 00:00:00" none
        (schedule_appointment { id := none, patient_id := 1, doctor_id := 7,
                                            appointment_date := "2020-01-01 09:00:00",
                                            reason := "checkup", status := "scheduled" } emptyDB).2 = [] ∧
    get_upcoming_appointments "2024-01-01 00:00:00" (some 0)
        (schedule_appointment { id := none, patient_id := 1, doctor_id := 7,
                                            appointment_date := "2020-01-01 09:00:00",
                                            reason := "checkup", status := "scheduled" } emptyDB).2 = [] ∧
    get_upcoming_appointments "2024-01-01 00:00:00" (some 7)
        (schedule_appointment { id := none, patient_id := 1, doctor_id := 7,
                                            appointment_date := "2020-01-01 09:00:00",
                                            reason := "checkup", status := "scheduled" } emptyDB).2 = [] := by
  refine ⟨rfl, ?_, ?_, ?_⟩ <;>
    simp [schedule_appointment, get_upcoming_appointments, emptyDB,
      freshTable, pyTruthy, sqliteLe, strLeb, List.mergeSort]

/-- C4 (amended: the patient round-trip holds via `get_patient`; an inserted
medical record is retrieved — with identical field values and its returned
id — through `get_patient_medical_history` of its `patient_id`; an inserted
appointment is retrieved through `get_upcoming_appointments` only when its
`appointment_date` is not in the past at query time, there being no by-id
appointment query). The well-formedness hypothesis — stored patient ids are
below the AUTOINCREMENT counter — holds in every reachable store (C8). -/
theorem roundtrip_spec (db : DB) (p : Patient) (m : MedicalRecord)
    (a : Appointment) (now : String)
    (hWf : ∀ r ∈ db.patients.rows, r.id < db.patients.next_id) :
    get_patient (add_patient p db).1 (add_patient p db).2 =
      some { p with id := some (add_patient p db).1 } ∧
    { m with id := some (add_medical_record m db).1 } ∈
      get_patient_medical_history m.patient_id (add_medical_record m db).2 ∧
    (sqliteLe now a.appointment_date = true →
      { a with id := some (schedule_appointment a db).1 } ∈
        get_upcoming_appointments now none (schedule_appointment a db).2) := by
  refine ⟨?_, ?_, ?_⟩
  · have hfind : db.patients.rows.find?
        (fun r => r.id == db.patients.next_id) = none :=
      List.find?_eq_none.mpr (fun r hr => by
        have := hWf r hr
        simp only [beq_iff_eq]
        omega)
    simp [add_patient, get_patient, List.find?_append, hfind,
      PatientRow.toPatient]
  · simp only [add_medical_record, get_patient_medical_history, List.mem_map,
      List.mem_mergeSort, List.mem_filter]
    refine ⟨{ id := db.medical_records.next_id, patient_id := m.patient_id,
              visit_date := m.visit_date, diagnosis := m.diagnosis,
              prescription := m.prescription, notes := m.notes,
              doctor_id := m.doctor_id }, ⟨by simp, by simp⟩, rfl⟩
  · intro hle
    simp only [schedule_appointment, get_upcoming_appointments, List.mem_map,
      List.mem_mergeSort, List.mem_filter]
    refine ⟨{ id := db.appointments.next_id, patient_id := a.patient_id,
              doctor_id := a.doctor_id,
              appointment_date := a.appointment_date, reason := a.reason,
              status := a.status }, ⟨by simp, by simp [pyTruthy, hle]⟩, rfl⟩

/-- Witness for C4 on the empty store with a future appointment. -/
theorem roundtrip_spec_witness :
    get_patient (add_patient { id := none, first_name := "Jane", last_name := "Doe", dob := "1990-05-15", gender := "F", contact_number := "555-0123", email := "jd@x", address := "123 Main St", insurance_info := "I12345" } emptyDB).1 (add_patient { id := none, first_name := "Jane", last_name := "Doe", dob := "1990-05-15", gender := "F", contact_number := "555-0123", email := "jd@x", address := "123 Main St", insurance_info := "I12345" } emptyDB).2 =
      some { id := some (add_patient { id := none, first_name := "Jane", last_name := "Doe", dob := "1990-05-15", gender := "F", contact_number := "555-0123", email := "jd@x", address := "123 Main St", insurance_info := "I12345" } emptyDB).1, first_name := "Jane", last_name := "Doe", dob := "1990-05-15", gender := "F", contact_number := "555-0123", email := "jd@x", address := "123 Main St", insurance_info := "I12345" } ∧
    ({ id := some (add_medical_record { id := none, patient_id := 1, visit_date := "2024-11-14 15:00:00", diagnosis := "Healthy", prescription := "None", notes := "ok", doctor_id := 1 } emptyDB).1, patient_id := 1, visit_date := "2024-11-14 15:00:00", diagnosis := "Healthy", prescription := "None", notes := "ok", doctor_id := 1 } : MedicalRecord) ∈
      get_patient_medical_history 1 (add_medical_record { id := none, patient_id := 1, visit_date := "2024-11-14 15:00:00", diagnosis := "Healthy", prescription := "None", notes := "ok", doctor_id := 1 } emptyDB).2 ∧
    (sqliteLe "2024-01-01 00:00:00" "2025-11-20 14:30:00" = true →
      ({ id := some (schedule_appointment { id := none, patient_id := 1, doctor_id := 1, appointment_date := "2025-11-20 14:30:00", reason := "checkup", status := "scheduled" } emptyDB).1, patient_id := 1, doctor_id := 1, appointment_date := "2025-11-20 14:30:00", reason := "checkup", status := "scheduled" } : Appointment) ∈
        get_upcoming_appointments "2024-01-01 00:00:00" none (schedule_appointment { id := none, patient_id := 1, doctor_id := 1, appointment_date := "2025-11-20 14:30:00", reason := "checkup", status := "scheduled" } emptyDB).2) :=
  roundtrip_spec emptyDB
    { id := none, first_name := "Jane", last_name := "Doe", dob := "1990-05-15", gender := "F", contact_number := "555-0123", email := "jd@x", address := "123 Main St", insurance_info := "I12345" }
    { id := none, patient_id := 1, visit_date := "2024-11-14 15:00:00", diagnosis := "Healthy", prescription := "None", notes := "ok", doctor_id := 1 }
    { id := none, patient_id := 1, doctor_id := 1, appointment_date := "2025-11-20 14:30:00", reason := "checkup", status := "scheduled" }
    "2024-01-01 00:00:00" (by simp [emptyDB, freshTable])

/-! ## SQLite LIKE lemmas -/

theorem likeMatch_lit_cons (p c : Char) (ps s : List Char)
    (h1 : p ≠ '%') (h2 : p ≠ '_') :
    likeMatch (p :: ps) (c :: s) =
      ((lowerChar p == lowerChar c) && likeMatch ps s) := by
  rw [likeMatch]
  simp [h1, h2]
  exact h2

theorem likeMatch_lit_nil (p : Char) (ps : List Char)
    (h1 : p ≠ '%') (h2 : p ≠ '_') :
    likeMatch (p :: ps) [] = false := by
  rw [likeMatch]
  simp [h1, h2]
  exact h2

theorem likeMatch_pct_all : ∀ s, likeMatch ['%'] s = true
  | [] => by simp [likeMatch]
  | c :: s => by
    have := likeMatch_pct_all s
    simp [likeMatch, this]

theorem likeMatch_pct_iff (ps : List Char) (s : List Char) :
    likeMatch ('%' :: ps) s = true ↔
      ∃ s₁ s₂, s = s₁ ++ s₂ ∧ likeMatch ps s₂ = true := by
  induction s with
  | nil =>
    simp only [likeMatch]
    constructor
    · intro h
      exact ⟨[], [], rfl, h⟩
    · rintro ⟨s₁, s₂, heq, hm⟩
      obtain ⟨h1, h2⟩ := List.append_eq_nil.mp heq.symm
      subst h2
      exact hm
  | cons c s ih =>
    rw [show likeMatch ('%' :: ps) (c :: s) =
        (likeMatch ps (c :: s) || likeMatch ('%' :: ps) s) from by
      simp [likeMatch]]
    simp only [Bool.or_eq_true]
    constructor
    · rintro (h | h)
      · exact ⟨[], c :: s, rfl, h⟩
      · obtain ⟨s₁, s₂, heq, hm⟩ := ih.mp h
        exact ⟨c :: s₁, s₂, by rw [heq, List.cons_append], hm⟩
    · rintro ⟨s₁, s₂, heq, hm⟩
      cases s₁ with
      | nil =>
        left
        rw [show (c :: s : List Char) = s₂ from by simpa using heq] at *
        exact hm
      | cons d s₁ =>
        right
        rw [List.cons_append] at heq
        obtain ⟨-, heq₂⟩ := List.cons.inj heq
        exact ih.mpr ⟨s₁, s₂, heq₂, hm⟩

theorem likeMatch_lit_pct (t : List Char) :
    noWild t = true → ∀ s,
      (likeMatch (t ++ ['%']) s = true ↔
        ∃ s₁ s₂, s = s₁ ++ s₂ ∧ lowerL s₁ = lowerL t) := by
  induction t with
  | nil =>
    intro _ s
    simp only [List.nil_append]
    constructor
    · intro _
      exact ⟨[], s, rfl, rfl⟩
    · intro _
      exact likeMatch_pct_all s
  | cons c t ih =>
    intro hw s
    have hc : ¬(c == '%' || c == '_') = true := by
      have := List.all_eq_true.mp hw c (List.mem_cons_self c t)
      simpa using this
    have hc1 : c ≠ '%' := by
      intro h
      subst h
      simp at hc
    have hc2 : c ≠ '_' := by
      intro h
      subst h
      simp at hc
    have hw' : noWild t = true := by
      apply List.all_eq_true.mpr
      intro x hx
      exact List.all_eq_true.mp hw x (List.mem_cons_of_mem c hx)
    cases s with
    | nil =>
      rw [List.cons_append, likeMatch_lit_nil c _ hc1 hc2]
      simp only [Bool.false_eq_true, false_iff]
      rintro ⟨s₁, s₂, heq, hl⟩
      obtain ⟨h1, -⟩ := List.append_eq_nil.mp heq.symm
      subst h1
      simp only [lowerL, List.map_nil, List.map_cons] at hl
      exact List.noConfusion hl
    | cons d s =>
      rw [List.cons_append, likeMatch_lit_cons c d _ _ hc1 hc2]
      simp only [Bool.and_eq_true, beq_iff_eq]
      constructor
      · rintro ⟨hch, hm⟩
        obtain ⟨s₁, s₂, heq, hl⟩ := (ih hw' s).mp hm
        refine ⟨d :: s₁, s₂, by rw [heq, List.cons_append], ?_⟩
        simp [lowerL] at hl ⊢
        exact ⟨hch.symm, hl⟩
      · rintro ⟨s₁, s₂, heq, hl⟩
        cases s₁ with
        | nil => simp [lowerL] at hl
        | cons e s₁ =>
          rw [List.cons_append] at heq
          obtain ⟨hde, heq₂⟩ := List.cons.inj heq
          simp only [lowerL, List.map_cons] at hl
          obtain ⟨hce, hlt⟩ := List.cons.inj hl
          subst hde
          exact ⟨hce.symm, (ih hw' s).mpr ⟨s₁, s₂, heq₂, hlt⟩⟩

theorem likeMatch_pattern_iff (t s : List Char) (hw : noWild t = true) :
    likeMatch ('%' :: (t ++ ['%'])) s = true ↔
      ∃ l m r, s = l ++ m ++ r ∧ lowerL m = lowerL t := by
  rw [likeMatch_pct_iff]
  constructor
  · rintro ⟨l, s₂, heq, hm⟩
    obtain ⟨m, r, heq₂, hl⟩ := (likeMatch_lit_pct t hw s₂).mp hm
    exact ⟨l, m, r, by rw [heq, heq₂, List.append_assoc], hl⟩
  · rintro ⟨l, m, r, heq, hl⟩
    exact ⟨l, m ++ r, by rw [heq, List.append_assoc],
      (likeMatch_lit_pct t hw (m ++ r)).mpr ⟨m, r, rfl, hl⟩⟩

theorem exists_mid_iff_lower (t s : List Char) :
    (∃ l m r, s = l ++ m ++ r ∧ lowerL m = lowerL t) ↔
      ∃ l r, lowerL s = l ++ lowerL t ++ r := by
  constructor
  · rintro ⟨l, m, r, rfl, hl⟩
    refine ⟨lowerL l, lowerL r, ?_⟩
    simp only [lowerL, List.map_append] at *
    rw [hl]
  · rintro ⟨l, r, h⟩
    refine ⟨s.take l.length, (s.drop l.length).take t.length,
            (s.drop l.length).drop t.length, ?_, ?_⟩
    · rw [List.append_assoc, List.take_append_drop, List.take_append_drop]
    · have h1 : lowerL ((s.drop l.length).take t.length) =
          ((lowerL s).drop l.length).take t.length := by
        simp [lowerL, List.map_take, List.map_drop]
      rw [h1, h, List.append_assoc, List.drop_left]
      have h2 : (lowerL t).length = t.length := by simp [lowerL]
      exact List.take_left' h2

theorem startsWithL_iff : ∀ (pat s : List Char),
    (startsWithL pat s = true ↔ ∃ r, s = pat ++ r)
  | [], s => by simp [startsWithL]
  | p :: ps, [] => by
    simp [startsWithL]
  | p :: ps, c :: cs => by
    simp only [startsWithL, Bool.and_eq_true, beq_iff_eq]
    rw [startsWithL_iff ps cs]
    constructor
    · rintro ⟨rfl, r, rfl⟩
      exact ⟨r, rfl⟩
    · rintro ⟨r, h⟩
      rw [List.cons_append] at h
      obtain ⟨h1, h2⟩ := List.cons.inj h
      exact ⟨h1.symm, r, h2⟩

theorem occursIn_iff (pat : List Char) : ∀ s : List Char,
    (occursIn pat s = true ↔ ∃ l r, s = l ++ pat ++ r)
  | [] => by
    simp only [occursIn, List.isEmpty_iff]
    constructor
    · rintro rfl
      exact ⟨[], [], rfl⟩
    · rintro ⟨l, r, h⟩
      obtain ⟨h1, h2⟩ := List.append_eq_nil.mp h.symm
      obtain ⟨h3, h4⟩ := List.append_eq_nil.mp h1
      exact h4
  | c :: cs => by
    simp only [occursIn, Bool.or_eq_true]
    rw [startsWithL_iff, occursIn_iff pat cs]
    constructor
    · rintro (⟨r, h⟩ | ⟨l, r, h⟩)
      · exact ⟨[], r, by simpa using h⟩
      · exact ⟨c :: l, r, by simp [h]⟩
    · rintro ⟨l, r, h⟩
      cases l with
      | nil => exact Or.inl ⟨r, by simpa using h⟩
      | cons d l =>
        rw [List.cons_append, List.cons_append] at h
        obtain ⟨-, h2⟩ := List.cons.inj h
        exact Or.inr ⟨l, r, by simpa [List.append_assoc] using h2⟩

/-! ## Claim C7: patient search (corrected for wildcard terms) -/

/-- The original C7 fails for search terms containing the `LIKE` wildcards:
the code runs `LIKE '%term%'`, so the term `"J_ne"` matches the stored
patient `Jane Doe` (`_` matches any single character) although neither
`"Jane"` nor `"Doe"` contains `"J_ne"` as a (case-insensitive) substring —
the result is not exactly the substring matches. -/
theorem search_patients_counterexample :
    search_patients "J_ne" { emptyDB with patients := { rows := [{ id := 1, first_name := "Jane", last_name := "Doe", dob := "1990-05-15", gender := "F", contact_number := "5", email := "e", address := "a", insurance_info := "i" }], next_id := 2 } } = [{ id := some 1, first_name := "Jane", last_name := "Doe", dob := "1990-05-15", gender := "F", contact_number := "5", email := "e", address := "a", insurance_info := "i" }] ∧
    ¬ (∃ l x, lowerL "Jane".data = l ++ lowerL "J_ne".data ++ x) ∧
    ¬ (∃ l x, lowerL "Doe".data = l ++ lowerL "J_ne".data ++ x) := by
  refine ⟨?_, ?_, ?_⟩
  · simp [search_patients, likeMatch, lowerChar, emptyDB, freshTable,
      PatientRow.toPatient]
  · intro h
    have h2 := (occursIn_iff (lowerL "J_ne".data) (lowerL "Jane".data)).mpr h
    have h3 : occursIn (lowerL "J_ne".data) (lowerL "Jane".data) = false := by
      decide
    rw [h3] at h2
    exact Bool.false_ne_true h2
  · intro h
    have h2 := (occursIn_iff (lowerL "J_ne".data) (lowerL "Doe".data)).mpr h
    have h3 : occursIn (lowerL "J_ne".data) (lowerL "Doe".data) = false := by
      decide
    rw [h3] at h2
    exact Bool.false_ne_true h2

/-- C7 (amended: for search terms free of the `LIKE` wildcards `%` and `_`;
a term containing a wildcard is interpreted by `LIKE`, see the
counterexample): `search_patients` returns exactly the stored patients whose
`first_name` or `last_name` contains the term as a case-insensitive
substring (ASCII case folding, as SQLite's `LIKE` folds). -/
theorem search_patients_spec (db : DB) (term : String)
    (hw : noWild term.data = true) :
    ∀ q, q ∈ search_patients term db ↔
      ∃ r ∈ db.patients.rows, q = r.toPatient ∧
        ((∃ l x, lowerL r.first_name.data = l ++ lowerL term.data ++ x) ∨
         (∃ l x, lowerL r.last_name.data = l ++ lowerL term.data ++ x)) := by
  intro q
  simp only [search_patients, List.mem_map, List.mem_filter, Bool.or_eq_true]
  constructor
  · rintro ⟨r, ⟨hmem, hlk⟩, heq⟩
    refine ⟨r, hmem, heq.symm, ?_⟩
    rcases hlk with h | h
    · exact Or.inl ((exists_mid_iff_lower term.data r.first_name.data).mp
        ((likeMatch_pattern_iff term.data r.first_name.data hw).mp h))
    · exact Or.inr ((exists_mid_iff_lower term.data r.last_name.data).mp
        ((likeMatch_pattern_iff term.data r.last_name.data hw).mp h))
  · rintro ⟨r, hmem, heq, hor⟩
    refine ⟨r, ⟨hmem, ?_⟩, heq.symm⟩
    rcases hor with h | h
    · exact Or.inl ((likeMatch_pattern_iff term.data r.first_name.data hw).mpr
        ((exists_mid_iff_lower term.data r.first_name.data).mpr h))
    · exact Or.inr ((likeMatch_pattern_iff term.data r.last_name.data hw).mpr
        ((exists_mid_iff_lower term.data r.last_name.data).mpr h))

/-- Witness for C7: the spec's own example — searching `"Doe"` over the
patients Jane Doe, John Smith and Eve Doering, instantiated at Jane Doe. -/
theorem search_patients_spec_witness :
    ({ id := some 1, first_name := "Jane", last_name := "Doe", dob := "1990-01-01", gender := "F", contact_number := "1", email := "a", address := "x", insurance_info := "i" } : Patient) ∈ search_patients "Doe" { emptyDB with patients := { rows := [{ id := 1, first_name := "Jane", last_name := "Doe", dob := "1990-01-01", gender := "F", contact_number := "1", email := "a", address := "x", insurance_info := "i" }, { id := 2, first_name := "John", last_name := "Smith", dob := "1991-01-01", gender := "M", contact_number := "2", email := "b", address := "y", insurance_info := "j" }, { id := 3, first_name := "Eve", last_name := "Doering", dob := "1992-01-01", gender := "F", contact_number := "3", email := "c", address := "z", insurance_info := "k" }], next_id := 4 } } ↔
      ∃ r ∈ ({ emptyDB with patients := { rows := [{ id := 1, first_name := "Jane", last_name := "Doe", dob := "1990-01-01", gender := "F", contact_number := "1", email := "a", address := "x", insurance_info := "i" }, { id := 2, first_name := "John", last_name := "Smith", dob := "1991-01-01", gender := "M", contact_number := "2", email := "b", address := "y", insurance_info := "j" }, { id := 3, first_name := "Eve", last_name := "Doering", dob := "1992-01-01", gender := "F", contact_number := "3", email := "c", address := "z", insurance_info := "k" }], next_id := 4 } } : DB).patients.rows,
        ({ id := some 1, first_name := "Jane", last_name := "Doe", dob := "1990-01-01", gender := "F", contact_number := "1", email := "a", address := "x", insurance_info := "i" } : Patient) = r.toPatient ∧
        ((∃ l x, lowerL r.first_name.data = l ++ lowerL "Doe".data ++ x) ∨
         (∃ l x, lowerL r.last_name.data = l ++ lowerL "Doe".data ++ x)) :=
  search_patients_spec { emptyDB with patients := { rows := [{ id := 1, first_name := "Jane", last_name := "Doe", dob := "1990-01-01", gender := "F", contact_number := "1", email := "a", address := "x", insurance_info := "i" }, { id := 2, first_name := "John", last_name := "Smith", dob := "1991-01-01", gender := "M", contact_number := "2", email := "b", address := "y", insurance_info := "j" }, { id := 3, first_name := "Eve", last_name := "Doering", dob := "1992-01-01", gender := "F", contact_number := "3", email := "c", address := "z", insurance_info := "k" }], next_id := 4 } } "Doe" (by decide) { id := some 1, first_name := "Jane", last_name := "Doe", dob := "1990-01-01", gender := "F", contact_number := "1", email := "a", address := "x", insurance_info := "i" }

/-! ## Claim C8: store invariants -/

theorem TableWf.snoc {α : Type} {t : Table α} {gid : α → Nat}
    (h : TableWf t gid) (r : α) (hr : gid r = t.next_id) :
    TableWf ⟨t.rows ++ [r], t.next_id + 1⟩ gid := by
  obtain ⟨rows, next⟩ := t
  obtain ⟨h1, h2, h3⟩ := h
  dsimp only at hr h1 h2 h3 ⊢
  refine ⟨by dsimp only; omega, ?_, ?_⟩
  · intro x hx
    rcases List.mem_append.mp hx with hx | hx
    · have := h2 x hx
      dsimp only
      omega
    · simp only [List.mem_singleton] at hx
      subst hx
      dsimp only
      omega
  · rw [List.pairwise_append]
    refine ⟨h3, by simp, ?_⟩
    intro a ha b hb
    simp only [List.mem_singleton] at hb
    subst hb
    have := h2 a ha
    omega

/-- C8: the store invariant — every stored id a positive integer, unique
within its table, and usernames unique across the users table — holds in the
freshly initialized store and is preserved by every exposed mutating
operation (the query operations return values without touching the store);
each insert hands out a positive id. -/
theorem invariants_preserved (kdf : String → List Nat → List Nat)
    (salt : List Nat) (u pw ro nm : String) (p : Patient) (m : MedicalRecord)
    (a : Appointment) (db : DB) (hdb : DBWf db) :
    DBWf emptyDB ∧
    (0 < (add_patient p db).1 ∧ DBWf (add_patient p db).2) ∧
    (0 < (schedule_appointment a db).1 ∧
      DBWf (schedule_appointment a db).2) ∧
    (0 < (add_medical_record m db).1 ∧
      DBWf (add_medical_record m db).2) ∧
    (0 < db.users.next_id ∧ DBWf (add_user kdf salt u pw ro nm db).2) := by
  obtain ⟨hu, hp, ha, hm, hn⟩ := hdb
  refine ⟨?_, ⟨hp.1, ?_⟩, ⟨ha.1, ?_⟩, ⟨hm.1, ?_⟩, ⟨hu.1, ?_⟩⟩
  · exact ⟨⟨by simp [emptyDB, freshTable], by simp [emptyDB, freshTable],
      by simp [emptyDB, freshTable]⟩,
      ⟨by simp [emptyDB, freshTable], by simp [emptyDB, freshTable],
        by simp [emptyDB, freshTable]⟩,
      ⟨by simp [emptyDB, freshTable], by simp [emptyDB, freshTable],
        by simp [emptyDB, freshTable]⟩,
      ⟨by simp [emptyDB, freshTable], by simp [emptyDB, freshTable],
        by simp [emptyDB, freshTable]⟩,
      by simp [emptyDB, freshTable]⟩
  · exact ⟨hu, TableWf.snoc hp _ rfl, ha, hm, hn⟩
  · exact ⟨hu, hp, TableWf.snoc ha _ rfl, hm, hn⟩
  · exact ⟨hu, hp, ha, TableWf.snoc hm _ rfl, hn⟩
  · by_cases hdup : db.users.rows.any (fun x => x.username == u) = true
    · have heq : add_user kdf salt u pw ro nm db = (false, db) := by
        simp [add_user, hdup]
      rw [heq]
      exact ⟨hu, hp, ha, hm, hn⟩
    · have hfalse : db.users.rows.any (fun x => x.username == u) = false :=
        Bool.eq_false_iff.mpr hdup
      have hnotin : ∀ x ∈ db.users.rows, x.username ≠ u := by
        intro x hx
        have := List.any_eq_false.mp hfalse x hx
        simpa using this
      have heq : (add_user kdf salt u pw ro nm db).2 =
          { db with users :=
              { rows := db.users.rows ++
                  [{ id := db.users.next_id, username := u,
                     password_hash := (hash_password kdf pw salt).1,
                     salt := (hash_password kdf pw salt).2, role := ro,
                     name := nm }],
                next_id := db.users.next_id + 1 } } := by
        simp [add_user, hfalse, hash_password]
      rw [heq]
      refine ⟨TableWf.snoc hu _ rfl, hp, ha, hm, ?_⟩
      rw [List.pairwise_append]
      refine ⟨hn, by simp, ?_⟩
      intro x hx y hy
      simp only [List.mem_singleton] at hy
      subst hy
      exact hnotin x hx

/-- Witness for C8 on the empty store (which satisfies the invariant). -/
theorem invariants_preserved_witness :
    DBWf emptyDB ∧
    (0 < (add_patient { id := none, first_name := "Jane", last_name := "Doe", dob := "1990-05-15", gender := "F", contact_number := "5", email := "e", address := "a", insurance_info := "i" } emptyDB).1 ∧
      DBWf (add_patient { id := none, first_name := "Jane", last_name := "Doe", dob := "1990-05-15", gender := "F", contact_number := "5", email := "e", address := "a", insurance_info := "i" } emptyDB).2) ∧
    (0 < (schedule_appointment { id := none, patient_id := 1, doctor_id := 1, appointment_date := "2025-11-20 14:30:00", reason := "checkup", status := "scheduled" } emptyDB).1 ∧
      DBWf (schedule_appointment { id := none, patient_id := 1, doctor_id := 1, appointment_date := "2025-11-20 14:30:00", reason := "checkup", status := "scheduled" } emptyDB).2) ∧
    (0 < (add_medical_record { id := none, patient_id := 1, visit_date := "2024-11-14 15:00:00", diagnosis := "Healthy", prescription := "None", notes := "ok", doctor_id := 1 } emptyDB).1 ∧
      DBWf (add_medical_record { id := none, patient_id := 1, visit_date := "2024-11-14 15:00:00", diagnosis := "Healthy", prescription := "None", notes := "ok", doctor_id := 1 } emptyDB).2) ∧
    (0 < emptyDB.users.next_id ∧
      DBWf (add_user (fun _ s => s) [] "dr_smith" "pw" "doctor" "Dr" emptyDB).2) :=
  invariants_preserved (fun _ s => s) [] "dr_smith" "pw" "doctor" "Dr"
    { id := none, first_name := "Jane", last_name := "Doe", dob := "1990-05-15", gender := "F", contact_number := "5", email := "e", address := "a", insurance_info := "i" }
    { id := none, patient_id := 1, visit_date := "2024-11-14 15:00:00", diagnosis := "Healthy", prescription := "None", notes := "ok", doctor_id := 1 }
    { id := none, patient_id := 1, doctor_id := 1, appointment_date := "2025-11-20 14:30:00", reason := "checkup", status := "scheduled" }
    emptyDB
    (by refine ⟨⟨?_, ?_, ?_⟩, ⟨?_, ?_, ?_⟩, ⟨?_, ?_, ?_⟩, ⟨?_, ?_, ?_⟩, ?_⟩ <;>
      simp [emptyDB, freshTable])
